import Mathlib

/-!
Verification of the session lifecycle and diagnostic-synchronization layer of
`multilspy/server.py` (classes `LSPSession` and `SessionManager`).

The Python code is shallowly embedded: each method becomes a pure Lean
function over an explicit state, interactions with the external LSP client
library (`SyncLanguageServer`) are parameterised by oracles
(`ClientBehavior`, `ServerContext`, `CreateEnv`), Python exceptions become
the `Except Err` monad, and each operation additionally returns the list of
externally observable `Event`s it performs, in order, so that ordering
claims (open/sleep/query/close, remove-before-stop, insert-after-start) can
be stated.  The `threading.Lock` discipline of `get_diagnostics` is modelled
separately as a small-step interleaving system over program counters.
-/

/-- Errors raised by the embedded code: `ValueError`, `RuntimeError`, and
exceptions escaping the underlying client library. -/
inductive Err where
  | valueError (msg : String)
  | runtimeError (msg : String)
  | clientError (msg : String)
deriving DecidableEq, Repr

/-- A zero-based (line, character) position, as in the `DiagnosticRange`
pydantic model. -/
structure Position where
  line : Nat
  character : Nat
deriving DecidableEq, Repr

/-- Range of a diagnostic (`DiagnosticRange` in server.py). -/
structure DiagnosticRange where
  start : Position
  «end» : Position
deriving DecidableEq, Repr

/-- A single diagnostic record (`DiagnosticItem` in server.py): range,
message, optional severity, code and source. -/
structure Diagnostic where
  range : DiagnosticRange
  message : String
  severity : Option Nat
  code : Option String
  source : Option String
deriving DecidableEq, Repr

/-- Externally observable actions performed by the embedded methods, in
program order. -/
inductive Event where
  /-- entry of the scoped `self.lsp.open_file(file_path)` block: the file is
  registered as open in the underlying client. -/
  | openEnter (path : String)
  /-- the fixed `time.sleep` inside `get_diagnostics`, in milliseconds. -/
  | sleepMs (ms : Nat)
  /-- the `self.lsp.request_diagnostics(file_path)` call. -/
  | requestDiagnostics (path : String)
  /-- exit of the scoped `open_file` block: the file is unregistered. -/
  | openExit (path : String)
  /-- the `self.server_context.__exit__(None, None, None)` attempt in
  `LSPSession.stop`. -/
  | ctxExit
  /-- removal of a key from `SessionManager._sessions`
  (the `pop` in `delete_session`). -/
  | mapRemove (id : String)
  /-- the `session.start()` call inside `create_session`. -/
  | startAttempt
  /-- the `self._sessions[session_id] = session` insertion in
  `create_session`. -/
  | mapInsert (id : String)
deriving DecidableEq, Repr

/-- Oracle for the underlying LSP client handle (`SyncLanguageServer`):
whether the scoped `open_file(path)` entry succeeds, and what
`request_diagnostics(path)` returns (a list of records, or an exception). -/
structure ClientBehavior where
  openOk : String → Bool
  diagResult : String → Except Err (List Diagnostic)

/-- Oracle for the started-server context manager held in
`self.server_context`: whether its `__exit__(None, None, None)` raises. -/
structure ServerContext where
  exitRaises : Bool
deriving DecidableEq, Repr

/-- Behaviour of `self.server_context.__exit__(None, None, None)`. -/
def ServerContext.exitCall (c : ServerContext) : Except Err Unit :=
  if c.exitRaises then Except.error (Err.clientError "teardown failed") else Except.ok ()

/-- State of one `LSPSession` object: the fields set in
`LSPSession.__init__` (the `threading.Lock` in `self._lock` is modelled by
the interleaving system further below, not as data). -/
structure LSPSession where
  session_id : String
  language : String
  project_path : String
  lsp : Option ClientBehavior
  server_context : Option ServerContext
  created_at : Nat

/-- Embedding of `LSPSession.__init__(session_id, language, project_path)`:
`lsp` and `server_context` start as `None`, `created_at` is the current
time. -/
def LSPSession.init (session_id language project_path : String) (now : Nat) : LSPSession :=
  { session_id := session_id
    language := language
    project_path := project_path
    lsp := none
    server_context := none
    created_at := now }

/-- Oracle for what the external client library does during
`LSPSession.start`: the outcome of
`SyncLanguageServer.create(config, logger, project_path)` and of
`self.lsp.start_server(); self.server_context.__enter__()`. -/
structure StartEnv where
  createClient : Except Err ClientBehavior
  enterServer : Except Err ServerContext

/-- Embedding of `LSPSession.start`.  On success of both external calls the
client handle and the entered server context are stored; any exception
propagates to the caller (`create_session`), which then discards the
session object. -/
def LSPSession.start (s : LSPSession) (env : StartEnv) : Except Err LSPSession :=
  match env.createClient with
  | Except.error e => Except.error e
  | Except.ok lsp =>
    match env.enterServer with
    | Except.error e => Except.error e
    | Except.ok ctx =>
      Except.ok { s with lsp := some lsp, server_context := some ctx }

/-- Embedding of `LSPSession.stop`: if `self.server_context` is set, its
`__exit__` is attempted inside `try/except Exception: pass` (the `ctxExit`
event records the attempt; the result of `exitCall` is discarded either
way); then `self.lsp` and `self.server_context` are both set to `None`.
The return type has no error channel because the source swallows every
exception from the release. -/
def LSPSession.stop (s : LSPSession) : LSPSession × List Event :=
  let evs : List Event :=
    match s.server_context with
    | some ctx =>
      match ctx.exitCall with
      | Except.ok _ => [Event.ctxExit]
      | Except.error _ => [Event.ctxExit]
    | none => []
  ({ s with lsp := none, server_context := none }, evs)

/-- The fixed language-specific wait of `get_diagnostics`, in milliseconds:
`time.sleep(2.0 if self.language == "python" else 5.0)` — Java (the
language with the heavier analysis startup) waits 5000 ms. -/
def waitMs (language : String) : Nat :=
  if language == "python" then 2000 else 5000

/-- Embedding of `LSPSession.get_diagnostics(file_path)`.  If `self.lsp` is
`None` it raises `RuntimeError("LSP server not started")` without touching
the client.  Otherwise (under `self._lock`, modelled by the interleaving
system below) it opens the file as a scoped operation, sleeps the fixed
language-specific duration, queries `request_diagnostics` and returns its
result verbatim; the scoped open is exited on both the normal and the
exceptional path, so the event trace is the same whether `diagResult`
returns records or raises.  If the `open_file` entry itself raises, the
block is never entered and no client event is recorded. -/
def LSPSession.get_diagnostics (s : LSPSession) (file_path : String) :
    Except Err (List Diagnostic) × List Event :=
  match s.lsp with
  | none => (Except.error (Err.runtimeError "LSP server not started"), [])
  | some lsp =>
    if lsp.openOk file_path then
      (lsp.diagResult file_path,
       [Event.openEnter file_path,
        Event.sleepMs (waitMs s.language),
        Event.requestDiagnostics file_path,
        Event.openExit file_path])
    else
      (Except.error (Err.clientError "open_file failed"), [])

/-- Backing store of `SessionManager._sessions`, a Python `dict` modelled as
an association list with unique keys (every operation below preserves key
uniqueness, mirroring dict semantics). -/
abbrev SessionDict := List (String × LSPSession)

/-- Python `d.get(k)`: the value at the first (and, with unique keys, only)
occurrence of `k`. -/
def dictGet : SessionDict → String → Option LSPSession
  | [], _ => none
  | (k, v) :: rest, key => if k == key then some v else dictGet rest key

/-- Python `d[k] = v`: replaces the value at `k` in place if present,
otherwise appends the new binding (dicts preserve insertion order). -/
def dictInsert : SessionDict → String → LSPSession → SessionDict
  | [], k, v => [(k, v)]
  | (k0, v0) :: rest, k, v =>
    if k0 == k then (k, v) :: rest else (k0, v0) :: dictInsert rest k v

/-- Python `d.pop(k, None)`, removal half: drops every binding of `k`
(with unique keys, the single one if present). -/
def dictRemove (d : SessionDict) (k : String) : SessionDict :=
  d.filter (fun p => p.1 != k)

/-- Python `list(d.keys())`. -/
def dictKeys (d : SessionDict) : List String :=
  d.map Prod.fst

/-- State of the `SessionManager`: the `_sessions` map (its `_lock` guards
only the map operations themselves, which are atomic in this embedding). -/
structure SessionManager where
  sessions : SessionDict

/-- Oracle for the environment consumed by one `create_session` call: the
`os.path.isdir` answer, the id produced by `uuid.uuid4().hex[:12]`, the
current time, and the behaviour of the external client library during
`start()`. -/
structure CreateEnv where
  isDir : String → Bool
  freshId : String
  now : Nat
  startEnv : StartEnv

/-- Embedding of `os.path.isabs` (POSIX semantics: `p.startswith("/")`,
i.e. the first character of the path is a slash). -/
def os_path_isabs (p : String) : Bool :=
  match p.data with
  | [] => false
  | c :: _ => c == '/'

/-- Embedding of `SessionManager.create_session(language, project_path)`:
validates the language against `("python", "java")`, then that the path is
absolute, then that it is an existing directory, raising `ValueError` with
the source message on each mismatch; otherwise builds the session, calls
its `start()` (event `startAttempt`), and only if that succeeds inserts it
into `_sessions` (event `mapInsert`) and returns it. -/
def SessionManager.create_session (m : SessionManager)
    (language project_path : String) (env : CreateEnv) :
    Except Err (SessionManager × LSPSession) × List Event :=
  if !(language == "python" || language == "java") then
    (Except.error (Err.valueError ("Unsupported language: " ++ language)), [])
  else if !(os_path_isabs project_path) then
    (Except.error (Err.valueError "project_path must be an absolute path"), [])
  else if !(env.isDir project_path) then
    (Except.error (Err.valueError ("project_path does not exist: " ++ project_path)), [])
  else
    let session_id := env.freshId
    let session := LSPSession.init session_id language project_path env.now
    match session.start env.startEnv with
    | Except.error e => (Except.error e, [Event.startAttempt])
    | Except.ok session =>
      (Except.ok (⟨dictInsert m.sessions session_id session⟩, session),
       [Event.startAttempt, Event.mapInsert session_id])

/-- Embedding of `SessionManager.get_session(session_id)`: a pure lookup. -/
def SessionManager.get_session (m : SessionManager) (session_id : String) :
    Option LSPSession :=
  dictGet m.sessions session_id

/-- Embedding of `SessionManager.delete_session(session_id)`: pops the
entry under the map lock (event `mapRemove`), then, outside the lock, calls
`stop()` on the popped session if there was one and returns `true`;
returns `false` if the id was absent. -/
def SessionManager.delete_session (m : SessionManager) (session_id : String) :
    Bool × SessionManager × List Event :=
  let popped := dictGet m.sessions session_id
  let m2 : SessionManager := ⟨dictRemove m.sessions session_id⟩
  match popped with
  | some session =>
    (true, m2, Event.mapRemove session_id :: (session.stop).2)
  | none => (false, m2, [])

/-- Embedding of `SessionManager.list_sessions()`. -/
def SessionManager.list_sessions (m : SessionManager) : List String :=
  dictKeys m.sessions

/-!
Interleaving model of the `threading.Lock` discipline in
`LSPSession.get_diagnostics`.  One `get_diagnostics` call is a sequence of
atomic steps indexed by a program counter `pc : Fin 7`:

* 0 — about to enter `with self._lock` (acquire);
* 1 — lock held, about to enter `with self.lsp.open_file(...)` (client call);
* 2 — file open, about to `time.sleep(...)`;
* 3 — slept, about to call `self.lsp.request_diagnostics(...)` (client call);
* 4 — about to exit the `open_file` scope (client call);
* 5 — about to release `self._lock`;
* 6 — returned.

Counters 1–5 form the critical section: exactly the span during which the
call holds the session lock and may touch the underlying client.  A thread
at `pc = 0` can only step when the lock is free.
-/

/-- Whether a `get_diagnostics` call at this program counter is inside its
session-lock critical section (where all underlying-client operations
happen). -/
def inCritical (pc : Fin 7) : Bool :=
  1 ≤ pc.val && pc.val ≤ 5

/-- One atomic step of a single `get_diagnostics` call holding or
contending for its session lock: acquisition blocks while the lock is held,
interior steps leave the lock untouched, the final step releases it. -/
def diagStep (lock : Bool) (pc : Fin 7) : Option (Bool × Fin 7) :=
  if pc.val = 0 then
    if lock then none else some (true, 1)
  else if pc.val = 5 then some (false, 6)
  else if pc.val = 6 then none
  else some (lock, pc + 1)

/-- Joint state of two concurrent `get_diagnostics` calls against the SAME
session: the session lock and the two program counters. -/
abbrev SameState := Bool × Fin 7 × Fin 7

/-- Scheduler step for the same-session system: `true` steps the first
call, `false` the second; both contend for the one shared lock. -/
def sameStep (s : SameState) (t : Bool) : Option SameState :=
  match s with
  | (lock, pc1, pc2) =>
    if t then
      match diagStep lock pc1 with
      | some (lock2, pc) => some (lock2, pc, pc2)
      | none => none
    else
      match diagStep lock pc2 with
      | some (lock2, pc) => some (lock2, pc1, pc)
      | none => none

/-- Executes a schedule (list of thread choices) from a same-session state;
`none` when the schedule picks a step that is not enabled. -/
def sameRun : List Bool → SameState → Option SameState
  | [], s => some s
  | t :: ts, s =>
    match sameStep s t with
    | some s2 => sameRun ts s2
    | none => none

/-- Initial same-session state: lock free, both calls before acquisition. -/
def sameInit : SameState := (false, 0, 0)

/-- Lock invariant of the same-session system: a call inside its critical
section implies the lock is held, and the two calls are never both inside. -/
def sameInv (s : SameState) : Bool :=
  match s with
  | (lock, pc1, pc2) =>
    (!(inCritical pc1) || lock) && (!(inCritical pc2) || lock) &&
      !(inCritical pc1 && inCritical pc2)

/-- Joint state of two concurrent `get_diagnostics` calls against two
DIFFERENT sessions: each call has its own session lock. -/
abbrev DiffState := (Bool × Fin 7) × (Bool × Fin 7)

/-- Scheduler step for the different-sessions system: each call steps
against its own lock only. -/
def diffStep (s : DiffState) (t : Bool) : Option DiffState :=
  match s with
  | ((lock1, pc1), (lock2, pc2)) =>
    if t then
      match diagStep lock1 pc1 with
      | some st => some (st, (lock2, pc2))
      | none => none
    else
      match diagStep lock2 pc2 with
      | some st => some ((lock1, pc1), st)
      | none => none

/-- Executes a schedule from a different-sessions state. -/
def diffRun : List Bool → DiffState → Option DiffState
  | [], s => some s
  | t :: ts, s =>
    match diffStep s t with
    | some s2 => diffRun ts s2
    | none => none

/-- Initial different-sessions state. -/
def diffInit : DiffState := ((false, 0), (false, 0))

/-- A concrete underlying-client behaviour: every `open_file` succeeds and
`request_diagnostics` returns the empty list. -/
def okClient : ClientBehavior :=
  { openOk := fun _ => true, diagResult := fun _ => Except.ok [] }

/-- A started-server context whose `__exit__` raises. -/
def badCtx : ServerContext := { exitRaises := true }

/-- A started-server context whose `__exit__` succeeds. -/
def goodCtx : ServerContext := { exitRaises := false }

/-- A concrete running Python session whose teardown raises. -/
def runningSession : LSPSession :=
  { session_id := "s1"
    language := "python"
    project_path := "/p"
    lsp := some okClient
    server_context := some badCtx
    created_at := 0 }

/-- A manager holding exactly `runningSession` under id "s1". -/
def oneManager : SessionManager := ⟨[("s1", runningSession)]⟩

/-- The empty registry. -/
def emptyManager : SessionManager := ⟨[]⟩

/-- A creation environment whose directory check succeeds, whose
`uuid4().hex[:12]` draw is the fixed string "a1" (the generator is an
oracle: nothing prevents it from repeating a value), and whose underlying
client starts cleanly. -/
def collideEnv (now : Nat) : CreateEnv :=
  { isDir := fun _ => true
    freshId := "a1"
    now := now
    startEnv := { createClient := Except.ok okClient, enterServer := Except.ok goodCtx } }

/-- A creation environment whose underlying-client startup raises. -/
def failStartEnv : CreateEnv :=
  { isDir := fun _ => true
    freshId := "f1"
    now := 0
    startEnv :=
      { createClient := Except.error (Err.clientError "spawn failed")
        enterServer := Except.ok goodCtx } }

/-- The session that a successful `create_session` stores and returns:
the freshly constructed session with the started client handle and entered
server context filled in. -/
def runningFrom (session_id language project_path : String) (now : Nat)
    (c : ClientBehavior) (ctx : ServerContext) : LSPSession :=
  { LSPSession.init session_id language project_path now with
      lsp := some c, server_context := some ctx }

/-- Registry state after the first create with environment `collideEnv 0`. -/
def collideM1 : SessionManager :=
  ⟨[("a1", runningFrom "a1" "python" "/p" 0 okClient goodCtx)]⟩

theorem dictGet_insert_self (d : SessionDict) (k : String) (v : LSPSession) :
    dictGet (dictInsert d k v) k = some v := by
  induction d with
  | nil => simp [dictInsert, dictGet]
  | cons p rest ih =>
    by_cases h : p.1 == k
    · simp [dictInsert, h, dictGet]
    · simp only [dictInsert]
      cases p with
      | mk k0 v0 =>
        simp only at h
        simp [h, dictGet, ih]

theorem dictGet_insert_other (d : SessionDict) (k k2 : String) (v : LSPSession)
    (h : k2 ≠ k) : dictGet (dictInsert d k v) k2 = dictGet d k2 := by
  induction d with
  | nil =>
    simp only [dictInsert, dictGet]
    have : (k == k2) = false := by
      simp [beq_iff_eq]
      exact fun hk => h hk.symm
    simp [this]
  | cons p rest ih =>
    cases p with
    | mk k0 v0 =>
      by_cases h0 : k0 == k
      · have hk0 : k0 = k := by exact beq_iff_eq.mp h0
        have : (k == k2) = false := by
          simp [beq_iff_eq]
          exact fun hk => h hk.symm
        have hk02 : (k0 == k2) = false := by
          simp [beq_iff_eq, hk0]
          exact fun hk => h hk.symm
        simp [dictInsert, h0, dictGet, this, hk02]
      · simp [dictInsert, h0, dictGet, ih]

theorem dictGet_remove_self (d : SessionDict) (k : String) :
    dictGet (dictRemove d k) k = none := by
  induction d with
  | nil => simp [dictRemove, dictGet]
  | cons p rest ih =>
    cases p with
    | mk k0 v0 =>
      by_cases h0 : k0 == k
      · have : (k0 != k) = false := by simp_all [bne]
        simpa [dictRemove, List.filter, this] using ih
      · have hne : (k0 != k) = true := by simp_all [bne]
        simp only [dictRemove, List.filter, hne] at ih ⊢
        simpa [dictGet, h0] using ih

theorem dictGet_none_remove (d : SessionDict) (k : String)
    (h : dictGet d k = none) : dictRemove d k = d := by
  induction d with
  | nil => simp [dictRemove]
  | cons p rest ih =>
    cases p with
    | mk k0 v0 =>
      by_cases h0 : k0 == k
      · simp [dictGet, h0] at h
      · simp only [dictGet, h0] at h
        have hne : (k0 != k) = true := by simp_all [bne]
        simp only [dictRemove, List.filter, hne]
        simp only [dictRemove] at ih
        simp [ih (by simpa using h)]


set_option maxRecDepth 4000 in
theorem sameInv_step :
    ∀ s : SameState, ∀ t : Bool,
      sameInv s = true → sameInv ((sameStep s t).getD s) = true := by
  decide

theorem sameRun_inv (acts : List Bool) :
    ∀ s s2 : SameState, sameInv s = true → sameRun acts s = some s2 →
      sameInv s2 = true := by
  induction acts with
  | nil =>
    intro s s2 hinv hrun
    simp only [sameRun] at hrun
    cases hrun
    exact hinv
  | cons t ts ih =>
    intro s s2 hinv hrun
    simp only [sameRun] at hrun
    cases hstep : sameStep s t with
    | none => rw [hstep] at hrun; cases hrun
    | some smid =>
      rw [hstep] at hrun
      have hmid : sameInv smid = true := by
        have := sameInv_step s t hinv
        rw [hstep] at this
        exact this
      exact ih smid s2 hmid hrun


/-- C1: with a non-null running client, `get_diagnostics` performs exactly,
in order: scoped open of the file, the fixed language-specific sleep
(longer for Java, the heavier-startup language, than for Python), the
diagnostics query — and returns the query result verbatim; the trace
equation holds whether `request_diagnostics` returns records or raises, so
the scoped open is unregistered on every exit path. -/
theorem get_diagnostics_steps_in_order (s : LSPSession) (c : ClientBehavior)
    (fp : String) (hl : s.lsp = some c) (ho : c.openOk fp = true) :
    (s.get_diagnostics fp).2 =
      [Event.openEnter fp, Event.sleepMs (waitMs s.language),
       Event.requestDiagnostics fp, Event.openExit fp] ∧
    (s.get_diagnostics fp).1 = c.diagResult fp ∧
    waitMs "python" < waitMs "java" := by
  refine ⟨?_, ?_, by decide⟩ <;> simp [LSPSession.get_diagnostics, hl, ho]

/-- Witness for C1 at the concrete session `runningSession` and file
"m.py". -/
theorem get_diagnostics_steps_in_order_witness :
    (runningSession.get_diagnostics "m.py").2 =
      [Event.openEnter "m.py", Event.sleepMs (waitMs runningSession.language),
       Event.requestDiagnostics "m.py", Event.openExit "m.py"] ∧
    (runningSession.get_diagnostics "m.py").1 = okClient.diagResult "m.py" ∧
    waitMs "python" < waitMs "java" :=
  get_diagnostics_steps_in_order runningSession okClient "m.py" rfl rfl

/-- C6: on a session whose client handle is `None` (in particular after
`stop()`), `get_diagnostics` raises `RuntimeError("LSP server not
started")` and performs no operation on the underlying client (empty event
trace). -/
theorem get_diagnostics_not_running (s : LSPSession) (fp : String)
    (h : s.lsp = none) :
    s.get_diagnostics fp =
      (Except.error (Err.runtimeError "LSP server not started"), []) := by
  simp [LSPSession.get_diagnostics, h]

/-- Witness for C6: a stopped session rejects the call. -/
theorem get_diagnostics_not_running_witness :
    (runningSession.stop).1.get_diagnostics "m.py" =
      (Except.error (Err.runtimeError "LSP server not started"), []) :=
  get_diagnostics_not_running (runningSession.stop).1 "m.py" rfl

/-- C10: after `stop()` both the client handle and the server context are
cleared to `None` (whether or not the release raised — the return shape is
unconditional), the release is attempted exactly when a server context was
present, and a second `stop()` leaves the session unchanged and performs no
release attempt. -/
theorem stop_clears_and_is_idempotent (s : LSPSession) :
    (s.stop).1.lsp = none ∧
    (s.stop).1.server_context = none ∧
    (∀ ctx, s.server_context = some ctx → (s.stop).2 = [Event.ctxExit]) ∧
    (s.stop).1.stop = ((s.stop).1, []) := by
  refine ⟨rfl, rfl, ?_, ?_⟩
  · intro ctx h
    simp only [LSPSession.stop, h]
    cases hc : ctx.exitCall <;> simp [hc]
  · simp [LSPSession.stop]

/-- Witness for C10: the session with a raising teardown still records
exactly one release attempt. -/
theorem stop_clears_and_is_idempotent_witness :
    (runningSession.stop).2 = [Event.ctxExit] :=
  (stop_clears_and_is_idempotent runningSession).2.2.1 badCtx rfl

/-- C2: under valid inputs, `create_session` inserts into the registry only
after the synchronous `start()` has succeeded: if `start()` raises, the
error propagates verbatim and the trace contains no insertion (no
partially-visible sessions); if it succeeds, the returned manager is the
input registry with exactly the new session inserted, the insertion event
strictly following the start attempt. -/
theorem create_session_insert_only_after_start (m : SessionManager)
    (language project_path : String) (env : CreateEnv)
    (hlang : (language == "python" || language == "java") = true)
    (habs : os_path_isabs project_path = true)
    (hdir : env.isDir project_path = true) :
    (∀ e, (LSPSession.init env.freshId language project_path env.now).start env.startEnv
        = Except.error e →
      (m.create_session language project_path env).1 = Except.error e ∧
      ∀ id, Event.mapInsert id ∉ (m.create_session language project_path env).2) ∧
    (∀ sess, (LSPSession.init env.freshId language project_path env.now).start env.startEnv
        = Except.ok sess →
      m.create_session language project_path env =
        (Except.ok (⟨dictInsert m.sessions env.freshId sess⟩, sess),
         [Event.startAttempt, Event.mapInsert env.freshId])) := by
  constructor
  · intro e hstart
    simp [SessionManager.create_session, hlang, habs, hdir, hstart]
  · intro sess hstart
    simp [SessionManager.create_session, hlang, habs, hdir, hstart]

/-- Witness for C2: a failing client spawn propagates and nothing is
inserted. -/
theorem create_session_insert_only_after_start_witness :
    (emptyManager.create_session "python" "/p" failStartEnv).1 =
      Except.error (Err.clientError "spawn failed") :=
  ((create_session_insert_only_after_start emptyManager "python" "/p" failStartEnv
      rfl rfl rfl).1 (Err.clientError "spawn failed") rfl).1

/-- C7: `create_session` raises `ValueError` (with the source's message)
when the language is outside `("python", "java")`, when the path is not
absolute, and when the path is not an existing directory; in each failure
case the event trace is empty — no `start()` is attempted and nothing is
inserted into the registry. -/
theorem create_session_validation (m : SessionManager)
    (language project_path : String) (env : CreateEnv) :
    ((language == "python" || language == "java") = false →
      m.create_session language project_path env =
        (Except.error (Err.valueError ("Unsupported language: " ++ language)), [])) ∧
    ((language == "python" || language == "java") = true →
      os_path_isabs project_path = false →
      m.create_session language project_path env =
        (Except.error (Err.valueError "project_path must be an absolute path"), [])) ∧
    ((language == "python" || language == "java") = true →
      os_path_isabs project_path = true →
      env.isDir project_path = false →
      m.create_session language project_path env =
        (Except.error
          (Err.valueError ("project_path does not exist: " ++ project_path)), [])) := by
  refine ⟨?_, ?_, ?_⟩
  · intro h
    simp [SessionManager.create_session, h]
  · intro hlang habs
    simp [SessionManager.create_session, hlang, habs]
  · intro hlang habs hdir
    simp [SessionManager.create_session, hlang, habs, hdir]

/-- Witness for C7: a relative project path is rejected with no start and
no insertion. -/
theorem create_session_validation_witness :
    emptyManager.create_session "python" "rel" (collideEnv 0) =
      (Except.error (Err.valueError "project_path must be an absolute path"), []) :=
  (create_session_validation emptyManager "python" "rel" (collideEnv 0)).2.1 rfl (by decide)

/-- C4: `delete_session` on a present id returns `true`, removes the map
entry strictly before performing the removed session's `stop()` actions
(the trace is the removal event followed by the stop trace), and a
subsequent `get_session` on that id returns `none`; on an absent id it
returns `false` and leaves the registry unchanged with no actions. -/
theorem delete_session_removes_before_stop (m : SessionManager) (id : String) :
    (∀ s, m.get_session id = some s →
      (m.delete_session id).1 = true ∧
      (m.delete_session id).2.2 = Event.mapRemove id :: (s.stop).2 ∧
      (m.delete_session id).2.1.get_session id = none) ∧
    (m.get_session id = none → m.delete_session id = (false, m, [])) := by
  constructor
  · intro s hs
    simp only [SessionManager.get_session] at hs
    refine ⟨?_, ?_, ?_⟩ <;>
      simp [SessionManager.delete_session, SessionManager.get_session, hs,
        dictGet_remove_self]
  · intro hnone
    simp only [SessionManager.get_session] at hnone
    simp [SessionManager.delete_session, hnone, dictGet_none_remove m.sessions id hnone]

/-- Witness for C4 on the one-session registry. -/
theorem delete_session_removes_before_stop_witness :
    (oneManager.delete_session "s1").1 = true ∧
    (oneManager.delete_session "s1").2.2 =
      Event.mapRemove "s1" :: (runningSession.stop).2 ∧
    (oneManager.delete_session "s1").2.1.get_session "s1" = none :=
  (delete_session_removes_before_stop oneManager "s1").1 runningSession rfl

/-- C5: when the stored server context's `__exit__` raises, the exception
is caught and discarded by `stop()` — which still returns the cleared
session and records the single release attempt, its type having no error
channel — and `delete_session` on the session's id still returns `true`. -/
theorem stop_swallows_teardown_error (m : SessionManager) (id : String)
    (s : LSPSession) (ctx : ServerContext)
    (hs : m.get_session id = some s)
    (hctx : s.server_context = some ctx)
    (hraises : ctx.exitRaises = true) :
    ctx.exitCall = Except.error (Err.clientError "teardown failed") ∧
    s.stop = ({ s with lsp := none, server_context := none }, [Event.ctxExit]) ∧
    (m.delete_session id).1 = true := by
  simp only [SessionManager.get_session] at hs
  refine ⟨?_, ?_, ?_⟩
  · simp [ServerContext.exitCall, hraises]
  · simp [LSPSession.stop, hctx, ServerContext.exitCall, hraises]
  · simp [SessionManager.delete_session, hs]

/-- Witness for C5: deleting the session whose teardown raises still
reports success. -/
theorem stop_swallows_teardown_error_witness :
    badCtx.exitCall = Except.error (Err.clientError "teardown failed") ∧
    runningSession.stop =
      ({ runningSession with lsp := none, server_context := none },
       [Event.ctxExit]) ∧
    (oneManager.delete_session "s1").1 = true :=
  stop_swallows_teardown_error oneManager "s1" runningSession badCtx rfl rfl rfl

/-- C3: in the interleaving model of the per-session lock, two concurrent
`get_diagnostics` calls against the same session are never simultaneously
inside the client critical section (every schedule from the initial state
preserves mutual exclusion), while against different sessions there is a
schedule putting both calls inside their critical sections at once (no
cross-session serialization). -/
theorem get_diagnostics_mutual_exclusion :
    (∀ (acts : List Bool) (s2 : SameState),
        sameRun acts sameInit = some s2 →
        ¬(inCritical s2.2.1 = true ∧ inCritical s2.2.2 = true)) ∧
    (∃ (acts : List Bool) (s2 : DiffState),
        diffRun acts diffInit = some s2 ∧
        inCritical s2.1.2 = true ∧ inCritical s2.2.2 = true) := by
  constructor
  · intro acts s2 hrun hboth
    have hinv := sameRun_inv acts sameInit s2 (by decide) hrun
    rcases s2 with ⟨lock, pc1, pc2⟩
    rcases hboth with ⟨h1, h2⟩
    simp [sameInv, h1, h2] at hinv
  · exact ⟨[true, false], ((true, 1), (true, 1)), by decide, by decide, by decide⟩

/-- Witness for C3: the reachable state where the first call holds the lock
and the second is still waiting is not doubly critical. -/
theorem get_diagnostics_mutual_exclusion_witness :
    ¬(inCritical (1 : Fin 7) = true ∧ inCritical (0 : Fin 7) = true) :=
  get_diagnostics_mutual_exclusion.1 [true] (true, 1, 0) (by decide)

/-- C9: under valid inputs and a successful client startup,
`create_session` returns the freshly started session, an immediate
`get_session` on its id returns that same session, and its client handle
is non-null (the `Running` state). -/
theorem create_then_get_running (m : SessionManager)
    (language project_path : String) (env : CreateEnv)
    (c : ClientBehavior) (ctx : ServerContext)
    (hlang : (language == "python" || language == "java") = true)
    (habs : os_path_isabs project_path = true)
    (hdir : env.isDir project_path = true)
    (hc : env.startEnv.createClient = Except.ok c)
    (hctx : env.startEnv.enterServer = Except.ok ctx) :
    (m.create_session language project_path env).1 =
      Except.ok
        (⟨dictInsert m.sessions env.freshId
            (runningFrom env.freshId language project_path env.now c ctx)⟩,
         runningFrom env.freshId language project_path env.now c ctx) ∧
    (SessionManager.mk (dictInsert m.sessions env.freshId
        (runningFrom env.freshId language project_path env.now c ctx))).get_session
        (runningFrom env.freshId language project_path env.now c ctx).session_id =
      some (runningFrom env.freshId language project_path env.now c ctx) ∧
    (runningFrom env.freshId language project_path env.now c ctx).lsp = some c := by
  have hstart :
      (LSPSession.init env.freshId language project_path env.now).start env.startEnv =
        Except.ok (runningFrom env.freshId language project_path env.now c ctx) := by
    simp [LSPSession.start, hc, hctx, runningFrom]
  refine ⟨?_, ?_, rfl⟩
  · simp [SessionManager.create_session, hlang, habs, hdir, hstart]
  · simpa [SessionManager.get_session, runningFrom, LSPSession.init] using
      dictGet_insert_self m.sessions env.freshId
        (runningFrom env.freshId language project_path env.now c ctx)

/-- Witness for C9 at the empty registry with a clean startup. -/
theorem create_then_get_running_witness :
    (emptyManager.create_session "python" "/p" (collideEnv 0)).1 =
      Except.ok
        (⟨dictInsert emptyManager.sessions "a1"
            (runningFrom "a1" "python" "/p" 0 okClient goodCtx)⟩,
         runningFrom "a1" "python" "/p" 0 okClient goodCtx) ∧
    (SessionManager.mk (dictInsert emptyManager.sessions "a1"
        (runningFrom "a1" "python" "/p" 0 okClient goodCtx))).get_session
        (runningFrom "a1" "python" "/p" 0 okClient goodCtx).session_id =
      some (runningFrom "a1" "python" "/p" 0 okClient goodCtx) ∧
    (runningFrom "a1" "python" "/p" 0 okClient goodCtx).lsp = some okClient :=
  create_then_get_running emptyManager "python" "/p" (collideEnv 0) okClient goodCtx
    rfl (by decide) rfl rfl rfl

theorem dictGet_none_not_mem_keys (d : SessionDict) (k : String)
    (h : dictGet d k = none) : ¬ k ∈ dictKeys d := by
  induction d with
  | nil => simp [dictKeys]
  | cons p rest ih =>
    cases p with
    | mk k0 v0 =>
      simp only [dictGet] at h
      by_cases h0 : (k0 == k) = true
      · simp [h0] at h
      · rw [Bool.not_eq_true] at h0
        simp only [h0, Bool.false_eq_true, if_false] at h
        have hne : k ≠ k0 := by
          intro he
          subst he
          simp at h0
        simp only [dictKeys, List.map_cons, List.mem_cons, not_or]
        exact ⟨hne, ih h⟩

theorem dictInsert_fresh (d : SessionDict) (k : String) (v : LSPSession)
    (h : dictGet d k = none) : dictInsert d k v = d ++ [(k, v)] := by
  induction d with
  | nil => simp [dictInsert]
  | cons p rest ih =>
    cases p with
    | mk k0 v0 =>
      simp only [dictGet] at h
      by_cases h0 : (k0 == k) = true
      · simp [h0] at h
      · rw [Bool.not_eq_true] at h0
        simp only [h0, Bool.false_eq_true, if_false] at h
        simp [dictInsert, h0, ih h]

/-- C8, counterexample: the id generator (`uuid.uuid4().hex[:12]`) is a
random draw with no freshness check against the registry, so when it
repeats a value — here the oracle yields "a1" twice — the second
`create_session` succeeds and silently replaces the existing entry: the
session created at time 0 is gone, the map holds the time-1 session under
the same id, and the registry still lists exactly one id. -/
theorem create_session_id_collision_replaces :
    (emptyManager.create_session "python" "/p" (collideEnv 0)).1 =
      Except.ok (collideM1, runningFrom "a1" "python" "/p" 0 okClient goodCtx) ∧
    (collideM1.get_session "a1").map (fun s => s.created_at) = some 0 ∧
    (collideM1.create_session "python" "/p" (collideEnv 1)).1 =
      Except.ok
        (⟨[("a1", runningFrom "a1" "python" "/p" 1 okClient goodCtx)]⟩,
         runningFrom "a1" "python" "/p" 1 okClient goodCtx) ∧
    ((SessionManager.mk
        [("a1", runningFrom "a1" "python" "/p" 1 okClient goodCtx)]).get_session
          "a1").map (fun s => s.created_at) = some 1 ∧
    (SessionManager.mk
        [("a1", runningFrom "a1" "python" "/p" 1 okClient goodCtx)]).list_sessions =
      ["a1"] :=
  ⟨rfl, rfl, rfl, rfl, rfl⟩

/-- C8, amended: provided the generated id is fresh (not already a key of
the registry), `create_session` appends exactly one new entry, the new id
maps to the returned session, every other id keeps its previous binding
(nothing is replaced), and key uniqueness — at most one session per id —
is preserved.  Without the freshness proviso the code offers no
never-reused guarantee (see the counterexample). -/
theorem create_session_fresh_id_no_replace (m m2 : SessionManager)
    (language project_path : String) (env : CreateEnv) (sess : LSPSession)
    (hfresh : m.get_session env.freshId = none)
    (hok : (m.create_session language project_path env).1 = Except.ok (m2, sess)) :
    m2.sessions = m.sessions ++ [(env.freshId, sess)] ∧
    m2.get_session env.freshId = some sess ∧
    (∀ k, k ≠ env.freshId → m2.get_session k = m.get_session k) ∧
    ((dictKeys m.sessions).Nodup → (dictKeys m2.sessions).Nodup) := by
  simp only [SessionManager.get_session] at hfresh
  simp only [SessionManager.create_session] at hok
  cases h1 : (language == "python" || language == "java") with
  | false => simp [h1] at hok
  | true =>
    cases h2 : os_path_isabs project_path with
    | false => simp [h1, h2] at hok
    | true =>
      cases h3 : env.isDir project_path with
      | false => simp [h1, h2, h3] at hok
      | true =>
        simp only [h1, h2, h3, Bool.or_self, Bool.not_true, Bool.false_eq_true,
          if_false, Bool.not_false] at hok
        cases hst : (LSPSession.init env.freshId language project_path env.now).start
            env.startEnv with
        | error e => simp [hst] at hok
        | ok s0 =>
          simp only [hst] at hok
          have hm2 : m2 = ⟨dictInsert m.sessions env.freshId s0⟩ :=
            congrArg Prod.fst (Except.ok.inj hok) |>.symm
          have hsess : sess = s0 :=
            congrArg Prod.snd (Except.ok.inj hok) |>.symm
          subst hsess
          subst hm2
          refine ⟨dictInsert_fresh m.sessions env.freshId sess hfresh, ?_, ?_, ?_⟩
          · simpa [SessionManager.get_session] using
              dictGet_insert_self m.sessions env.freshId sess
          · intro k hk
            simpa [SessionManager.get_session] using
              dictGet_insert_other m.sessions env.freshId k sess hk
          · intro hnd
            have hmem := dictGet_none_not_mem_keys m.sessions env.freshId hfresh
            rw [dictInsert_fresh m.sessions env.freshId sess hfresh]
            simp only [dictKeys, List.map_append, List.map_cons, List.map_nil]
            simp only [dictKeys] at hnd hmem
            simp [List.nodup_append, hnd, List.disjoint_left, hmem]

/-- Witness for the amended C8: a first create into the empty registry with
the fresh id "a1" binds that id to the returned session. -/
theorem create_session_fresh_id_no_replace_witness :
    collideM1.get_session "a1" =
      some (runningFrom "a1" "python" "/p" 0 okClient goodCtx) :=
  (create_session_fresh_id_no_replace emptyManager collideM1 "python" "/p"
      (collideEnv 0) (runningFrom "a1" "python" "/p" 0 okClient goodCtx)
      rfl rfl).2.1
